import Mathlib

/-!
Verification of `src/python/enfugue/diffusion/support/model.py`.

The file defines two classes:

* `SupportModelImageProcessor` — a base image processor: stores its keyword
  configuration, acts as a no-op context manager, and raises
  `NotImplementedError` when called.
* `SupportModel` — a base support model: the constructor expands a leading
  `~` in `model_dir`; `get_default_instance` resolves a device, a
  configuration (with a silent fallback) and a dtype; `context` is a
  `@contextmanager` generator that sets `self.loaded`, yields, and on normal
  fall-through clears the flag, drops the processor reference, releases
  device caches and runs `gc.collect()`.

Modelling conventions:

* Python exceptions are `Except PyError`.
* A Python instance attribute that may be absent is an `Option` field:
  `loaded : Option Bool` is `none` when the attribute has never been
  assigned (reading it raises `AttributeError`).  `process` has a
  class-level default of `None`, so the field is
  `Option (Option SupportModelImageProcessor)`: the outer layer records
  whether an *instance* attribute exists (`del` removes it), the inner layer
  is the Python value (`None` or a processor).
* External collaborators (`os.path.expanduser`, `torch`, the enfugue/pibble
  configuration services) are parameters: the device is a record carrying
  its `type` string, memory-allocator calls are recorded as trace events.
-/

/-- Python `s.startswith("~")` for the one-character test used by the code:
true exactly when the first character of `s` is `~`. -/
def startsWithTilde (s : String) : Bool :=
  s.data.take 1 == ['~']

/-- Python `s[1:]`: the string without its first character. -/
def stringTail (s : String) : String := ⟨s.data.drop 1⟩

/-- Python exceptions that the modelled code can raise. -/
inductive PyError
  | notImplementedError (msg : String)
  | attributeError (attr : String)
  | externalError (msg : String)
deriving DecidableEq, Repr

/-- `torch.device`: only its `type` string (`"cuda"`, `"mps"`, `"cpu"`, ...)
is inspected by the code. -/
structure TorchDevice where
  type : String
deriving DecidableEq, Repr

/-- `torch.dtype` values that the code mentions, plus a catch-all. -/
inductive TorchDType
  | float16
  | float32
  | other (name : String)
deriving DecidableEq, Repr

/-- Side effects performed by `SupportModel.context`, in order. -/
inductive Event
  | setLoaded (b : Bool)
  | dropProcess
  | cudaEmptyCache
  | mpsEmptyCache
  | gcCollect
deriving DecidableEq, Repr

/-- `SupportModelImageProcessor.__init__(**kwargs)`: stores the keyword
arguments verbatim. -/
structure SupportModelImageProcessor where
  kwargs : List (String × String)
deriving DecidableEq, Repr

/-- `SupportModelImageProcessor.__enter__`: returns `self`. -/
def SupportModelImageProcessor.enter (p : SupportModelImageProcessor) :
    SupportModelImageProcessor := p

/-- `SupportModelImageProcessor.__exit__(*args)`: returns (`None`, i.e. does
not suppress exceptions) without touching the object.  We return the
unchanged object to make "no side effects" provable. -/
def SupportModelImageProcessor.exitContext (p : SupportModelImageProcessor) :
    SupportModelImageProcessor := p

/-- `SupportModelImageProcessor.__call__(image)`: unconditionally raises
`NotImplementedError("Implementation did not override __call__")`. -/
def SupportModelImageProcessor.call {Image : Type}
    (_p : SupportModelImageProcessor) (_image : Image) : Except PyError Image :=
  Except.error (PyError.notImplementedError "Implementation did not override __call__")

/-- The state of a `SupportModel` instance. `loaded = none` means the
attribute does not exist yet; `process = none` means no instance attribute
shadows the class default `process = None`. -/
structure SupportModel where
  model_dir : String
  device : TorchDevice
  dtype : TorchDType
  loaded : Option Bool
  process : Option (Option SupportModelImageProcessor)
deriving DecidableEq, Repr

/-- `getattr(self, "process", None)`: the instance attribute if present,
otherwise the class attribute `SupportModel.process = None`. -/
def SupportModel.readProcess (m : SupportModel) :
    Option SupportModelImageProcessor :=
  match m.process with
  | some v => v
  | none => none

/-- `self.loaded` as a plain attribute read: raises `AttributeError` when the
attribute has never been assigned. -/
def SupportModel.readLoaded (m : SupportModel) : Except PyError Bool :=
  match m.loaded with
  | some b => Except.ok b
  | none => Except.error (PyError.attributeError "loaded")

/-- `del self.process`: removes the instance attribute, raising
`AttributeError` when no instance attribute exists. -/
def SupportModel.delProcess (m : SupportModel) : Except PyError SupportModel :=
  match m.process with
  | some _ => Except.ok { m with process := none }
  | none => Except.error (PyError.attributeError "process")

/-- `SupportModel.__init__(model_dir, device, dtype)`: expands a leading
`~` in `model_dir` via the platform primitive `os.path.expanduser`
(abstracted as `expand`), then stores the three attributes.  Neither
`loaded` nor an instance-level `process` attribute is created. -/
def SupportModel.init (expand : String → String) (model_dir : String)
    (device : TorchDevice) (dtype : TorchDType) : SupportModel :=
  let dir := if startsWithTilde model_dir then expand model_dir else model_dir
  { model_dir := dir, device := device, dtype := dtype,
    loaded := none, process := none }

/-- The configuration interface used by `get_default_instance`:
`configuration.get(key, default)`. -/
structure Configuration where
  get : String → String → String

/-- A configuration backed by a key/value list, for concrete instances. -/
def Configuration.ofList (items : List (String × String)) : Configuration :=
  ⟨fun key dflt => (items.lookup key).getD dflt⟩

/-- `SupportModel.get_default_instance()`: resolves a device (errors
propagate), then reads the local configuration under a bare `except:` that
substitutes `APIConfiguration()` on any error, and constructs the instance
with the configured cache directory and `float16` iff the device type is
`"cuda"`. -/
def SupportModel.get_default_instance (expand : String → String)
    (getOptimalDevice : Except PyError TorchDevice)
    (getLocalConfiguration : Except PyError Configuration)
    (apiConfiguration : Configuration) : Except PyError SupportModel :=
  match getOptimalDevice with
  | Except.error e => Except.error e
  | Except.ok device =>
    let configuration :=
      match getLocalConfiguration with
      | Except.ok c => c
      | Except.error _ => apiConfiguration
    Except.ok (SupportModel.init expand
      (configuration.get "enfugue.engine.cache" "~/.cache/enfugue/other")
      device
      (if device.type == "cuda" then TorchDType.float16 else TorchDType.float32))

/-- The part of `SupportModel.context` before `yield`: `self.loaded = True`. -/
def SupportModel.contextEnter (m : SupportModel) : SupportModel :=
  { m with loaded := some true }

/-- The part of `SupportModel.context` after `yield`:
`self.loaded = False`; if `getattr(self, "process", None) is not None` then
`del self.process` (the guard guarantees an instance attribute exists, so the
deletion cannot raise — see `SupportModel.delProcess`); then
`torch.cuda.empty_cache()` / `torch.mps.empty_cache()` depending on
`self.device.type`; finally `gc.collect()`.  Returns the new state and the
trace of effects in execution order. -/
def SupportModel.contextExit (m : SupportModel) : SupportModel × List Event :=
  let m1 := { m with loaded := some false }
  let (m2, dropEvents) :=
    if (SupportModel.readProcess m1).isSome then
      ({ m1 with process := none }, [Event.dropProcess])
    else
      (m1, ([] : List Event))
  let deviceEvents :=
    if m2.device.type == "cuda" then [Event.cudaEmptyCache]
    else if m2.device.type == "mps" then [Event.mpsEmptyCache]
    else ([] : List Event)
  (m2, Event.setLoaded false :: (dropEvents ++ deviceEvents ++ [Event.gcCollect]))

/-- Running `with self.context(): body`.  The `body` receives the state after
entry and returns the mutated state together with a normal result or a raised
exception.  Because the generator has no `try/finally`, a raising body makes
the whole construct re-raise with the body's state unchanged and no cleanup
effect performed. -/
def SupportModel.contextRun {α : Type} (m : SupportModel)
    (body : SupportModel → SupportModel × Except PyError α) :
    SupportModel × Except PyError α × List Event :=
  let m1 := SupportModel.contextEnter m
  match body m1 with
  | (m2, Except.error e) => (m2, Except.error e, [Event.setLoaded true])
  | (m2, Except.ok a) =>
      let (m3, evs) := SupportModel.contextExit m2
      (m3, Except.ok a, Event.setLoaded true :: evs)

/-- A concrete instance of the platform primitive `os.path.expanduser`,
restricted to the plain `~`-prefix case with a known home directory, used to
instantiate scenarios and witnesses. -/
def simpleExpandUser (home : String) (path : String) : String :=
  if startsWithTilde path then home ++ stringTail path else path

/-- C1: constructing a `SupportModel` stores the home-expansion of
`model_dir` when it begins with `~` (so the stored path carries no leading
`~` whenever the platform expansion has none), stores `model_dir` verbatim
otherwise, and stores `device` and `dtype` verbatim in both cases. -/
theorem construct_normalizes_model_dir (expand : String → String)
    (model_dir : String) (device : TorchDevice) (dtype : TorchDType) :
    (startsWithTilde model_dir = true →
      (SupportModel.init expand model_dir device dtype).model_dir = expand model_dir ∧
      (startsWithTilde (expand model_dir) = false →
        startsWithTilde (SupportModel.init expand model_dir device dtype).model_dir = false)) ∧
    (startsWithTilde model_dir = false →
      (SupportModel.init expand model_dir device dtype).model_dir = model_dir) ∧
    (SupportModel.init expand model_dir device dtype).device = device ∧
    (SupportModel.init expand model_dir device dtype).dtype = dtype := by
  unfold SupportModel.init
  by_cases h : startsWithTilde model_dir = true <;>
    simp_all

theorem construct_normalizes_model_dir_witness :
    (SupportModel.init (simpleExpandUser "/home/alice") "~/models/foo"
        ⟨"cpu"⟩ TorchDType.float32).model_dir = "/home/alice/models/foo" ∧
    (SupportModel.init (simpleExpandUser "/home/alice") "/srv/models"
        ⟨"cpu"⟩ TorchDType.float32).model_dir = "/srv/models" := by
  have h1 := (construct_normalizes_model_dir (simpleExpandUser "/home/alice")
    "~/models/foo" ⟨"cpu"⟩ TorchDType.float32).1 (by decide)
  have h2 := (construct_normalizes_model_dir (simpleExpandUser "/home/alice")
    "/srv/models" ⟨"cpu"⟩ TorchDType.float32).2.1 (by decide)
  refine ⟨?_, h2⟩
  rw [h1.1]
  decide

/-- C8: the base image processor raises NotImplementedError on every call
and never returns a value; its context enter returns the object itself and
its exit changes nothing. -/
theorem image_processor_base_contract {Image : Type}
    (p : SupportModelImageProcessor) (image : Image) :
    SupportModelImageProcessor.call p image =
      Except.error (PyError.notImplementedError "Implementation did not override __call__") ∧
    (∀ r : Image, SupportModelImageProcessor.call p image ≠ Except.ok r) ∧
    SupportModelImageProcessor.enter p = p ∧
    SupportModelImageProcessor.exitContext p = p := by
  refine ⟨rfl, ?_, rfl, rfl⟩
  intro r h
  simp [SupportModelImageProcessor.call] at h

theorem image_processor_base_contract_witness :
    SupportModelImageProcessor.call ⟨[("size", "512")]⟩ (0 : Nat) =
      Except.error (PyError.notImplementedError "Implementation did not override __call__") :=
  (image_processor_base_contract ⟨[("size", "512")]⟩ (0 : Nat)).1

/-- C9: a freshly constructed `SupportModel` has no `loaded` attribute at
all (reading it raises `AttributeError`); the attribute is first created at
context entry, where it reads as true. -/
theorem fresh_instance_has_no_loaded_attribute (expand : String → String)
    (model_dir : String) (device : TorchDevice) (dtype : TorchDType) :
    (SupportModel.init expand model_dir device dtype).loaded = none ∧
    SupportModel.readLoaded (SupportModel.init expand model_dir device dtype) =
      Except.error (PyError.attributeError "loaded") ∧
    SupportModel.readLoaded
        (SupportModel.contextEnter (SupportModel.init expand model_dir device dtype)) =
      Except.ok true := by
  exact ⟨rfl, rfl, rfl⟩

/-- C10: the processor-dropping step of normal context exit never fails:
when no processor reference is readable the deletion is skipped, and when a
deletion is performed the guarded `del` succeeds and the `process` attribute
afterwards reads as None through the class-level default. -/
theorem context_exit_drop_step_safe (m : SupportModel) :
    (SupportModel.readProcess m = none →
      (SupportModel.contextExit m).1.process = m.process ∧
      Event.dropProcess ∉ (SupportModel.contextExit m).2) ∧
    ((SupportModel.readProcess m).isSome = true →
      SupportModel.delProcess { m with loaded := some false } =
        Except.ok { m with loaded := some false, process := none } ∧
      SupportModel.readProcess (SupportModel.contextExit m).1 = none) := by
  constructor
  · intro hnone
    have hs : SupportModel.readProcess { m with loaded := some false } = none := by
      cases hp : m.process <;> simp_all [SupportModel.readProcess]
    constructor
    · simp [SupportModel.contextExit, hs]
    · simp [SupportModel.contextExit, hs]
      split <;> simp
  · intro hsome
    rcases hm : m.process with _ | v
    · simp [SupportModel.readProcess, hm] at hsome
    · rcases v with _ | p
      · simp [SupportModel.readProcess, hm] at hsome
      · constructor
        · simp [SupportModel.delProcess, hm]
        · simp [SupportModel.contextExit, SupportModel.readProcess, hm]

theorem context_exit_drop_step_safe_witness :
    SupportModel.readProcess
        (SupportModel.contextExit
          { model_dir := "/tmp/m", device := ⟨"cpu"⟩, dtype := TorchDType.float32,
            loaded := some true, process := some (some ⟨[]⟩) }).1 = none :=
  ((context_exit_drop_step_safe
      { model_dir := "/tmp/m", device := ⟨"cpu"⟩, dtype := TorchDType.float32,
        loaded := some true, process := some (some ⟨[]⟩) }).2 (by decide)).2

/-- C2: whenever the body run inside `SupportModel.context` completes
without raising, the state after exit has loaded = false and a processor
reference that reads as None, no matter what the body did to the object. -/
theorem context_normal_exit_resets {α : Type} (m : SupportModel)
    (body : SupportModel → SupportModel × Except PyError α)
    (m2 : SupportModel) (a : α)
    (hbody : body (SupportModel.contextEnter m) = (m2, Except.ok a)) :
    (SupportModel.contextRun m body).1.loaded = some false ∧
    SupportModel.readProcess (SupportModel.contextRun m body).1 = none := by
  simp only [SupportModel.contextRun, hbody]
  rcases hm : m2.process with _ | v
  · simp [SupportModel.contextExit, SupportModel.readProcess, hm]
  · rcases v with _ | p <;>
      simp [SupportModel.contextExit, SupportModel.readProcess, hm]

theorem context_normal_exit_resets_witness :
    (SupportModel.contextRun
        (SupportModel.init (simpleExpandUser "/home/alice") "~/x" ⟨"cuda"⟩ TorchDType.float16)
        (fun s => ({ s with process := some (some ⟨[("k", "v")]⟩) }, Except.ok (7 : Nat)))).1.loaded
      = some false ∧
    SupportModel.readProcess
        (SupportModel.contextRun
          (SupportModel.init (simpleExpandUser "/home/alice") "~/x" ⟨"cuda"⟩ TorchDType.float16)
          (fun s => ({ s with process := some (some ⟨[("k", "v")]⟩) }, Except.ok (7 : Nat)))).1
      = none :=
  context_normal_exit_resets
    (SupportModel.init (simpleExpandUser "/home/alice") "~/x" ⟨"cuda"⟩ TorchDType.float16)
    (fun s => ({ s with process := some (some ⟨[("k", "v")]⟩) }, Except.ok (7 : Nat)))
    _ 7 rfl

/-- C3: when the body run inside `SupportModel.context` raises, the
exception propagates to the caller, the state is exactly the state the body
left behind (so the loaded flag set at entry is still true when the body did
not itself change it, and the processor reference is not dropped), and no
drop, device-cache-release or memory-reclamation effect occurs. -/
theorem context_raising_body_skips_cleanup {α : Type} (m : SupportModel)
    (body : SupportModel → SupportModel × Except PyError α)
    (m2 : SupportModel) (e : PyError)
    (hbody : body (SupportModel.contextEnter m) = (m2, Except.error e)) :
    SupportModel.contextRun m body = (m2, Except.error e, [Event.setLoaded true]) ∧
    (m2.loaded = (SupportModel.contextEnter m).loaded →
      (SupportModel.contextRun m body).1.loaded = some true) ∧
    (SupportModel.contextRun m body).1.process = m2.process ∧
    Event.dropProcess ∉ (SupportModel.contextRun m body).2.2 ∧
    Event.cudaEmptyCache ∉ (SupportModel.contextRun m body).2.2 ∧
    Event.mpsEmptyCache ∉ (SupportModel.contextRun m body).2.2 ∧
    Event.gcCollect ∉ (SupportModel.contextRun m body).2.2 := by
  have h1 : SupportModel.contextRun m body = (m2, Except.error e, [Event.setLoaded true]) := by
    simp only [SupportModel.contextRun, hbody]
  rw [h1]
  refine ⟨rfl, ?_, rfl, by simp, by simp, by simp, by simp⟩
  intro h
  simpa [SupportModel.contextEnter] using h

theorem context_raising_body_skips_cleanup_witness :
    SupportModel.contextRun
        (SupportModel.init (simpleExpandUser "/home/alice") "~/x" ⟨"cuda"⟩ TorchDType.float16)
        (fun s => (s, (Except.error (PyError.externalError "boom") : Except PyError Nat)))
      = ({ model_dir := "/home/alice/x", device := ⟨"cuda"⟩, dtype := TorchDType.float16,
           loaded := some true, process := none },
         Except.error (PyError.externalError "boom"), [Event.setLoaded true]) := by
  have h := (context_raising_body_skips_cleanup
    (SupportModel.init (simpleExpandUser "/home/alice") "~/x" ⟨"cuda"⟩ TorchDType.float16)
    (fun s => (s, (Except.error (PyError.externalError "boom") : Except PyError Nat)))
    _ (PyError.externalError "boom") rfl).1
  rw [h]
  exact congrArg
    (fun s => (s, Except.error (PyError.externalError "boom"), [Event.setLoaded true]))
    (by decide)

/-- C6: on normal exit the cleanup trace is exactly: the loaded flag set
false, then the conditional processor drop, then the cuda-cache release or
else the mps-cache release (mutually exclusive), and a single general
memory-reclamation pass strictly last. -/
theorem context_normal_exit_event_order {α : Type} (m : SupportModel)
    (body : SupportModel → SupportModel × Except PyError α)
    (m2 : SupportModel) (a : α)
    (hbody : body (SupportModel.contextEnter m) = (m2, Except.ok a)) :
    (SupportModel.contextRun m body).2.2 =
      [Event.setLoaded true, Event.setLoaded false] ++
      (if (SupportModel.readProcess m2).isSome then [Event.dropProcess] else []) ++
      (if m2.device.type == "cuda" then [Event.cudaEmptyCache]
       else if m2.device.type == "mps" then [Event.mpsEmptyCache] else []) ++
      [Event.gcCollect] ∧
    (SupportModel.contextRun m body).2.2.count Event.gcCollect = 1 ∧
    (SupportModel.contextRun m body).2.2.getLast? = some Event.gcCollect := by
  have htrace : (SupportModel.contextRun m body).2.2 =
      [Event.setLoaded true, Event.setLoaded false] ++
      (if (SupportModel.readProcess m2).isSome then [Event.dropProcess] else []) ++
      (if m2.device.type == "cuda" then [Event.cudaEmptyCache]
       else if m2.device.type == "mps" then [Event.mpsEmptyCache] else []) ++
      [Event.gcCollect] := by
    simp only [SupportModel.contextRun, hbody, SupportModel.contextExit]
    have hrp : SupportModel.readProcess { m2 with loaded := some false } =
        SupportModel.readProcess m2 := by
      cases hm : m2.process <;> simp [SupportModel.readProcess, hm]
    by_cases hp : (SupportModel.readProcess m2).isSome <;>
      simp [hrp, hp]
  refine ⟨htrace, ?_, ?_⟩ <;> rw [htrace] <;>
    cases hp : (SupportModel.readProcess m2).isSome <;>
    cases hc : m2.device.type == "cuda" <;>
    cases hm : m2.device.type == "mps" <;>
      simp [hp, hc, hm, List.count_cons, List.getLast?]

theorem context_normal_exit_event_order_witness :
    (SupportModel.contextRun
        { model_dir := "/m", device := ⟨"mps"⟩, dtype := TorchDType.float32,
          loaded := none, process := none }
        (fun s => ({ s with process := some (some ⟨[]⟩) }, Except.ok (0 : Nat)))).2.2 =
      [Event.setLoaded true, Event.setLoaded false, Event.dropProcess,
       Event.mpsEmptyCache, Event.gcCollect] :=
  (context_normal_exit_event_order
    { model_dir := "/m", device := ⟨"mps"⟩, dtype := TorchDType.float32,
      loaded := none, process := none }
    (fun s => ({ s with process := some (some ⟨[]⟩) }, Except.ok (0 : Nat)))
    _ 0 rfl).1.trans (by decide)

/-- C7: the scenario of constructing with model_dir `~/models/foo`, a CPU
device and full precision stores `<home>/models/foo`, and an empty context
round-trip ends with loaded = false, exactly one gc pass and zero
device-cache releases. -/
theorem scenario_cpu_home_expansion (home : String) :
    (SupportModel.init (simpleExpandUser home) "~/models/foo"
        ⟨"cpu"⟩ TorchDType.float32).model_dir = home ++ "/models/foo" ∧
    (SupportModel.contextRun
        (SupportModel.init (simpleExpandUser home) "~/models/foo" ⟨"cpu"⟩ TorchDType.float32)
        (fun s => (s, Except.ok PUnit.unit))).1.loaded = some false ∧
    (SupportModel.contextRun
        (SupportModel.init (simpleExpandUser home) "~/models/foo" ⟨"cpu"⟩ TorchDType.float32)
        (fun s => (s, Except.ok PUnit.unit))).2.2.count Event.gcCollect = 1 ∧
    (SupportModel.contextRun
        (SupportModel.init (simpleExpandUser home) "~/models/foo" ⟨"cpu"⟩ TorchDType.float32)
        (fun s => (s, Except.ok PUnit.unit))).2.2.count Event.cudaEmptyCache = 0 ∧
    (SupportModel.contextRun
        (SupportModel.init (simpleExpandUser home) "~/models/foo" ⟨"cpu"⟩ TorchDType.float32)
        (fun s => (s, Except.ok PUnit.unit))).2.2.count Event.mpsEmptyCache = 0 := by
  have hst : startsWithTilde "~/models/foo" = true := by decide
  have htl : stringTail "~/models/foo" = "/models/foo" := by decide
  refine ⟨?_, ?_, ?_, ?_, ?_⟩ <;>
    simp [SupportModel.init, hst, htl, simpleExpandUser, SupportModel.contextRun,
      SupportModel.contextEnter, SupportModel.contextExit, SupportModel.readProcess,
      List.count_cons]

/-- C4: an instance built by `get_default_instance` carries dtype float16
when the resolved device type is `"cuda"` and float32 for every other
resolved device type. -/
theorem default_instance_dtype_matches_device (expand : String → String)
    (getLocalConfiguration : Except PyError Configuration)
    (apiConfiguration : Configuration) (d : TorchDevice) (inst : SupportModel)
    (hres : SupportModel.get_default_instance expand (Except.ok d)
      getLocalConfiguration apiConfiguration = Except.ok inst) :
    (d.type = "cuda" → inst.dtype = TorchDType.float16) ∧
    (d.type ≠ "cuda" → inst.dtype = TorchDType.float32) := by
  by_cases hd : d.type = "cuda"
  · refine ⟨fun _ => ?_, fun h => absurd hd h⟩
    simp [SupportModel.get_default_instance, hd] at hres
    rw [← hres]
    simp [SupportModel.init]
  · refine ⟨fun h => absurd h hd, fun _ => ?_⟩
    simp [SupportModel.get_default_instance, hd] at hres
    rw [← hres]
    simp [SupportModel.init]

theorem default_instance_dtype_matches_device_witness :
    (SupportModel.init id "~/.cache/enfugue/other" ⟨"cuda"⟩ TorchDType.float16).dtype =
      TorchDType.float16 :=
  (default_instance_dtype_matches_device id
    (Except.error (PyError.externalError "no config"))
    (Configuration.ofList []) ⟨"cuda"⟩
    (SupportModel.init id "~/.cache/enfugue/other" ⟨"cuda"⟩ TorchDType.float16)
    rfl).1 rfl

/-- C5: when the primary configuration source raises, `get_default_instance`
still succeeds and builds the instance from the default configuration's
cache path; when device resolution fails, that error propagates. -/
theorem default_instance_config_fallback (expand : String → String)
    (getLocalConfiguration : Except PyError Configuration)
    (apiConfiguration : Configuration) (d : TorchDevice) (e e' : PyError) :
    (getLocalConfiguration = Except.error e →
      SupportModel.get_default_instance expand (Except.ok d)
          getLocalConfiguration apiConfiguration =
        Except.ok (SupportModel.init expand
          (apiConfiguration.get "enfugue.engine.cache" "~/.cache/enfugue/other")
          d
          (if d.type == "cuda" then TorchDType.float16 else TorchDType.float32))) ∧
    SupportModel.get_default_instance expand (Except.error e')
        getLocalConfiguration apiConfiguration = Except.error e' := by
  constructor
  · intro hcfg
    simp [SupportModel.get_default_instance, hcfg]
  · simp [SupportModel.get_default_instance]

theorem default_instance_config_fallback_witness :
    SupportModel.get_default_instance (simpleExpandUser "/home/alice")
        (Except.ok ⟨"cpu"⟩)
        (Except.error (PyError.externalError "configuration unreadable"))
        (Configuration.ofList [])
      = Except.ok
          { model_dir := "/home/alice/.cache/enfugue/other", device := ⟨"cpu"⟩,
            dtype := TorchDType.float32, loaded := none, process := none } := by
  have h := (default_instance_config_fallback (simpleExpandUser "/home/alice")
    (Except.error (PyError.externalError "configuration unreadable"))
    (Configuration.ofList []) ⟨"cpu"⟩
    (PyError.externalError "configuration unreadable")
    (PyError.externalError "configuration unreadable")).1 rfl
  rw [h]
  refine congrArg Except.ok ?_
  simp [SupportModel.init, Configuration.ofList, simpleExpandUser, startsWithTilde, stringTail]
